import Mathlib

/-!
Shallow embedding of the `discord.ext.interactions` package
(dragdev-studios/interactions-python) and verification of its
natural-language specification.

Conventions of the embedding:
* Python dicts with string keys are association lists `List (String × JVal)`;
  insertion order is the list order, `dict.pop` is key erasure.
* JSON bodies handed to HTTP calls are kept as structured mappings rather
  than serialized strings (`to_json` in the source is `json.dumps`, which is
  injective on the mappings occurring here, so nothing is lost).
* Network I/O is modelled by an explicit response oracle passed to each
  operation, and each operation returns the ordered list of HTTP calls it
  issued alongside its result.
* Raised Python exceptions become `Except PyError` results.
* The Ed25519 primitive of PyNaCl is modelled as a boolean oracle
  `ed : List Nat → List Nat → List Nat → Bool` (key bytes, message bytes,
  signature bytes); the length checks PyNaCl performs before invoking the
  primitive (32-byte key, 64-byte signature) are modelled explicitly.
-/

namespace DI

/-- JSON-like values: the payloads exchanged with the platform. -/
inductive JVal where
  | null
  | bool (b : Bool)
  | num (n : Int)
  | str (s : String)
  | arr (xs : List JVal)
  | obj (fields : List (String × JVal))

/-- Lookup of a key in a Python dict modelled as an association list. -/
def lookupKey : List (String × JVal) → String → Option JVal
  | [], _ => none
  | kv :: rest, k => if kv.1 = k then some kv.2 else lookupKey rest k

/-- Key removal, as performed by `dict.pop(k, default)` on a Python dict
(keys of a Python dict are unique, so removing every binding of the key
agrees with removing the single one). -/
def eraseKey : List (String × JVal) → String → List (String × JVal)
  | [], _ => []
  | kv :: rest, k =>
    if kv.1 = k then eraseKey rest k else kv :: eraseKey rest k

/-- Whether a key is present in a mapping. -/
def hasKey (m : List (String × JVal)) (k : String) : Bool :=
  (lookupKey m k).isSome

/-- Fields named by the `IndexError` messages of `_validate_schema`; each
raised error message begins by naming the offending field, which we record
as this enum. -/
inductive ValidationField where
  | name
  | description
  | optionName
  | optionDescription
  | choices
deriving Repr, DecidableEq

/-- The Python exceptions the package can raise, as a closed error type.
`expiredToken` and `interactionsError` are the package error classes from
`errors.py`; the rest are builtin / library exceptions. -/
inductive PyError where
  | expiredToken
  | interactionsError
  | httpException (status : Nat)
  | typeError
  | valueError
  | attributeError
  | keyError
  | indexError (field : ValidationField)
  | notImplemented
deriving Repr, DecidableEq

/-- `BASE` from models.py. -/
def BASE : String := "https://discord.com/api/v8"

/-- `USERAGENT` from models.py. -/
def USERAGENT : String :=
  "DiscordBot (https://github.com/dragdev-studios/interactions-python, 0.0.1)"

/-- Value of one hexadecimal digit, as accepted by `bytes.fromhex`. -/
def hexDigitVal (c : Char) : Option Nat :=
  if ('0' ≤ c ∧ c ≤ '9') then some (c.toNat - '0'.toNat)
  else if ('a' ≤ c ∧ c ≤ 'f') then some (c.toNat - 'a'.toNat + 10)
  else if ('A' ≤ c ∧ c ≤ 'F') then some (c.toNat - 'A'.toNat + 10)
  else none

/-- Pairing of hex digits into bytes; `none` models the `ValueError` that
`bytes.fromhex` raises on an odd digit count or a non-hex character. -/
def bytesFromHexChars : List Char → Option (List Nat)
  | [] => some []
  | [_] => none
  | c1 :: c2 :: rest =>
    match hexDigitVal c1, hexDigitVal c2, bytesFromHexChars rest with
    | some h, some l, some bs => some ((h * 16 + l) :: bs)
    | _, _, _ => none

/-- Python `bytes.fromhex`: ASCII whitespace is skipped, then hex digits are
consumed two per byte. -/
def bytesFromHex (s : String) : Option (List Nat) :=
  bytesFromHexChars (s.toList.filter (fun c => !c.isWhitespace))

/-- Python `str.encode()`: the UTF-8 bytes of a string. -/
def strBytes (s : String) : List Nat :=
  s.toUTF8.toList.map (fun b => b.toNat)

/-- `Interaction.verify_request` (models.py lines 219-239).
`ed` is the Ed25519 oracle. The source builds
`VerifyKey(bytes.fromhex(public_key))` OUTSIDE any try block (PyNaCl raises
`ValueError` on bad hex via `bytes.fromhex` and `TypeError` on a key that is
not 32 bytes), then inside a `try` that catches ONLY `BadSignatureError` it
runs `key.verify(str(ts + raw_body).encode(), bytes.fromhex(sig))`; the
`ValueError` of a bad / odd hex signature or of a signature that is not
64 bytes long is NOT caught and propagates. A caught `BadSignatureError`
yields `False`, otherwise the result is `True`. -/
def verify_request (ed : List Nat → List Nat → List Nat → Bool)
    (sigHex ts rawBody keyHex : String) : Except PyError Bool :=
  match bytesFromHex keyHex with
  | none => Except.error PyError.valueError
  | some kb =>
    if kb.length ≠ 32 then Except.error PyError.typeError
    else
      match bytesFromHex sigHex with
      | none => Except.error PyError.valueError
      | some sb =>
        if sb.length ≠ 64 then Except.error PyError.valueError
        else Except.ok (ed kb (strBytes (ts ++ rawBody)) sb)

/-- `Router.verify_key` (fastapi_router.py lines 29-42). The two headers are
`Option`s (`headers.get` may return `None`). `message = timestamp.encode() +
body` runs before the try block, so a missing timestamp raises
`AttributeError`; everything after that point sits inside
`try: ... except Exception: pass; return False`, so every failure
(bad hex, wrong key length, missing signature header, bad signature length,
failed verification) collapses to `False`. -/
def verify_key (ed : List Nat → List Nat → List Nat → Bool)
    (timestamp signature : Option String) (body : List Nat) (key : String) :
    Except PyError Bool :=
  match timestamp with
  | none => Except.error PyError.attributeError
  | some ts =>
    let message := strBytes ts ++ body
    Except.ok (match bytesFromHex key with
      | none => false
      | some kb =>
        if kb.length ≠ 32 then false
        else match signature with
          | none => false
          | some sig =>
            match bytesFromHex sig with
            | none => false
            | some sb =>
              if sb.length ≠ 64 then false else ed kb message sb)

/-- Cryptographic success of the verification pipeline: both hex inputs
decode, have the lengths PyNaCl demands, and the Ed25519 oracle accepts. -/
def edAccepts (ed : List Nat → List Nat → List Nat → Bool)
    (message : List Nat) (sigHex keyHex : String) : Prop :=
  ∃ kb sb, bytesFromHex keyHex = some kb ∧ kb.length = 32 ∧
    bytesFromHex sigHex = some sb ∧ sb.length = 64 ∧ ed kb message sb = true

/-- An Ed25519 oracle that accepts everything (for concrete evaluations). -/
def edTrue : List Nat → List Nat → List Nat → Bool := fun _ _ _ => true

/-- A 32-byte (64 hex digit) public key for concrete evaluations. -/
def key64 : String :=
  "0000000000000000000000000000000000000000000000000000000000000000"

/-- A 64-byte (128 hex digit) signature for concrete evaluations. -/
def sig128 : String :=
  String.mk (List.replicate 128 '0')

/-- Python truthiness of the `content` argument (default `None`; the source
tests `if content:`, and an empty string is falsy). -/
def truthyStr : Option String → Bool
  | none => false
  | some s => s ≠ ""

/-- Python truthiness of a list-valued optional argument (`None` and the
empty list are falsy). -/
def listTruthy : Option (List JVal) → Bool
  | none => false
  | some l => !l.isEmpty

/-- The `allowed_mentions` value that `Interaction.followup` stores
(models.py lines 146-153). `discord.AllowedMentions` objects are represented
by their `to_dict()` payloads, and the `merge` method of the host library is
an oracle. When the argument is given it is merged with the bot-wide default
if that exists; otherwise the bot-wide default is used, and
`self.bot.allowed_mentions and self.bot.allowed_mentions.to_dict()` yields
`None` when the default is absent. -/
def amOf (merge : JVal → JVal → JVal) (botAllowedMentions : Option JVal)
    (allowed_mentions : Option JVal) : JVal :=
  match allowed_mentions, botAllowedMentions with
  | some amv, some bam => merge bam amv
  | some amv, none => amv
  | none, some bam => bam
  | none, none => JVal.null

/-- `Interaction.followup` (models.py lines 113-155). Mixing `embed` and
`embeds` (both truthy) raises `TypeError`; otherwise the result mapping gets
`content` / `tts` / `embeds` keys only when the corresponding argument is
truthy, a single `embed` is wrapped as a one-element list, and the
`allowed_mentions` key is assigned unconditionally at the end (possibly with
value `None`). `discord.Embed` objects (always truthy, represented by their
`to_dict()` payloads) are `JVal`s here. -/
def followup (merge : JVal → JVal → JVal) (botAllowedMentions : Option JVal)
    (content : Option String) (tts : Bool) (embed : Option JVal)
    (embeds : Option (List JVal)) (allowed_mentions : Option JVal) :
    Except PyError (List (String × JVal)) :=
  if embed.isSome && listTruthy embeds then Except.error PyError.typeError
  else
    let result : List (String × JVal) := []
    let result := if truthyStr content then
        result ++ [("content", JVal.str (content.getD ""))] else result
    let result := if tts then result ++ [("tts", JVal.bool tts)] else result
    let embeds := if embed.isSome then some [embed.getD JVal.null] else embeds
    let result := if listTruthy embeds then
        result ++ [("embeds", JVal.arr (embeds.getD []))] else result
    Except.ok (result ++
      [("allowed_mentions", amOf merge botAllowedMentions allowed_mentions)])

/-- One outbound HTTP call, as issued through `aiohttp.ClientSession`. -/
structure HttpCall where
  method : String
  uri : String
  headers : List (String × String)
  body : Option JVal

/-- The status and decoded JSON body of an HTTP response. -/
structure HttpResponse where
  status : Nat
  body : JVal

/-- The authorization and user-agent headers every outbound call sends. -/
def botHeaders (token : String) : List (String × String) :=
  [("Authorization", "Bot " ++ token), ("User-Agent", USERAGENT)]

/-- `Interaction.edit_initial_response` (models.py lines 157-186). `net` is
the network oracle; the second component of the result is the ordered list
of HTTP calls issued. The expired-token guard
`(datetime.utcnow() - self.token_start).total_seconds() > 900` runs before
the falsy-token guard, the payload construction and any network call.
`elapsed` is the seconds elapsed since `token_start` (a Python float,
modelled as a rational). -/
def edit_initial_response (net : HttpCall → HttpResponse)
    (merge : JVal → JVal → JVal) (userId : Nat) (token : String)
    (elapsed : ℚ) (botAllowedMentions : Option JVal) (content : Option String)
    (tts : Bool) (embed : Option JVal) (embeds : Option (List JVal))
    (allowed_mentions : Option JVal) :
    Except PyError JVal × List HttpCall :=
  let URI := BASE ++ "/webhooks/" ++ toString userId ++ "/" ++ token ++
    "/messages/@original"
  if elapsed > 900 then (Except.error PyError.expiredToken, [])
  else if token = "" then (Except.error PyError.interactionsError, [])
  else
    match followup merge botAllowedMentions content tts embed embeds
        allowed_mentions with
    | Except.error e => (Except.error e, [])
    | Except.ok data =>
      let call : HttpCall :=
        ⟨"PATCH", URI, botHeaders token, some (JVal.obj data)⟩
      let resp := net call
      if resp.status ≠ 200 then
        (Except.error (PyError.httpException resp.status), [call])
      else (Except.ok resp.body, [call])

/-- `Interaction.delete_initial_response` (models.py lines 188-213). Same
guards as the edit operation; the `delay` keyword argument is accepted but
never read by the source body. -/
def delete_initial_response (net : HttpCall → HttpResponse) (userId : Nat)
    (token : String) (elapsed : ℚ) (_delay : Option ℚ) :
    Except PyError JVal × List HttpCall :=
  let URI := BASE ++ "/webhooks/" ++ toString userId ++ "/" ++ token ++
    "/messages/@original"
  if elapsed > 900 then (Except.error PyError.expiredToken, [])
  else if token = "" then (Except.error PyError.interactionsError, [])
  else
    let call : HttpCall := ⟨"DELETE", URI, botHeaders token, none⟩
    let resp := net call
    if resp.status ≠ 200 then
      (Except.error (PyError.httpException resp.status), [call])
    else (Except.ok resp.body, [call])

/-- `Interaction.create_new_initial_response` (models.py lines 215-217):
unconditionally `raise NotImplementedError`. -/
def create_new_initial_response : Except PyError JVal :=
  Except.error PyError.notImplemented

/-- Python `str()` of the `JVal`s that occur as `uri` / `guild_id` values
(only strings and integers do in this package). -/
def pyStr : JVal → String
  | JVal.str s => s
  | JVal.num n => toString n
  | JVal.bool true => "True"
  | JVal.bool false => "False"
  | JVal.null => "None"
  | JVal.arr _ => ""
  | JVal.obj _ => ""

/-- Matches a pattern against the front of a character list, returning the
remainder on success. -/
def stripPrefixChars : List Char → List Char → Option (List Char)
  | [], l => some l
  | _ :: _, [] => none
  | p :: ps, c :: cs => if c = p then stripPrefixChars ps cs else none

/-- Replacement of every occurrence of the (nonempty) pattern `p :: ps` by
`repl`, scanning left to right; `fuel` bounds the recursion and any value
at least the length of the scanned list is exact. -/
def replaceFuel (p : Char) (ps repl : List Char) :
    Nat → List Char → List Char
  | 0, l => l
  | _ + 1, [] => []
  | fuel + 1, c :: rest =>
    if c = p then
      match stripPrefixChars ps rest with
      | some remainder => repl ++ replaceFuel p ps repl fuel remainder
      | none => c :: replaceFuel p ps repl fuel rest
    else c :: replaceFuel p ps repl fuel rest

/-- Python `str.replace` for a nonempty pattern (an empty pattern leaves
the string unchanged here; the source only ever substitutes the nonempty
placeholders of its uri templates). -/
def strReplace (s pattern replacement : String) : String :=
  match pattern.toList with
  | [] => s
  | p :: ps =>
    String.mk (replaceFuel p ps replacement.toList s.toList.length s.toList)

/-- `str.format` as applied to the two uri templates of the source: the
`client_id` and `guild_id` placeholders are substituted. -/
def formatUri (template : String) (clientId guildId : String) : String :=
  strReplace (strReplace template "{client_id}" clientId)
    "{guild_id}" guildId

/-- Erasure of the `uri` and `guild_id` keys that
`SlashCommand.create_global_commands` pops off each schema mapping. -/
def cleanPayload (m : List (String × JVal)) : List (String × JVal) :=
  eraseKey (eraseKey m "uri") "guild_id"

/-- The POST that `create_global_commands` issues for one schema: the
target is always `BASE + "/applications/{}/commands".format(client_id)`
(the string the source passes to `session.post`). -/
def postCall (clientId : Nat) (token : String)
    (payload : List (String × JVal)) : HttpCall :=
  ⟨"POST", BASE ++ "/applications/" ++ toString clientId ++ "/commands",
    botHeaders token, some (JVal.obj payload)⟩

/-- `SlashCommand.create_global_commands` (models.py lines 290-311), with
the running call index made explicit (`net` maps the index of a POST to its
response). For each schema in order: `payload.pop("uri", default)` and
`payload.pop("guild_id", "")` mutate the mapping in place; the popped uri
template is formatted with the client and guild ids but the resulting
string is never used afterwards (kept here as the unused `_uri`); a POST to
the global commands path carries the remaining payload; a non-200 status
raises `HTTPException` and aborts the batch. The third result component is
the caller-visible final state of every schema mapping (processed ones are
mutated, unprocessed ones untouched). -/
def create_global_commands (clientId : Nat) (token : String)
    (net : Nat → HttpResponse) :
    Nat → List (List (String × JVal)) →
    Except PyError Unit × List HttpCall × List (List (String × JVal))
  | _, [] => (Except.ok (), [], [])
  | idx, command :: rest =>
    let payload := cleanPayload command
    let _uri := formatUri
      (pyStr ((lookupKey command "uri").getD
        (JVal.str "/applications/{client_id}/commands")))
      (toString clientId)
      (pyStr ((lookupKey (eraseKey command "uri") "guild_id").getD
        (JVal.str "")))
    let call := postCall clientId token payload
    let resp := net idx
    if resp.status ≠ 200 then
      (Except.error (PyError.httpException resp.status), [call],
        payload :: rest)
    else
      match create_global_commands clientId token net (idx + 1) rest with
      | (r, calls, muts) => (r, call :: calls, payload :: muts)

/-- The Python annotations that can appear on a command parameter, as far as
the `SlashCommand.BASE_TYPES` table is concerned. -/
inductive PyType where
  | strT
  | intT
  | boolT
  | userT
  | textChannelT
  | roleT
  | userConverterT
  | textChannelConverterT
  | roleConverterT
  | otherT
deriving Repr, DecidableEq

/-- `SlashCommand.BASE_TYPES` (models.py lines 243-253): the fixed table
from parameter annotations to `ApplicationCommandOptionType` values
(STRING 3, INTEGER 4, BOOLEAN 5, USER 6, CHANNEL 7, ROLE 8). -/
def BASE_TYPES : PyType → Option Nat
  | PyType.strT => some 3
  | PyType.intT => some 4
  | PyType.boolT => some 5
  | PyType.userT => some 6
  | PyType.textChannelT => some 7
  | PyType.roleT => some 8
  | PyType.userConverterT => some 6
  | PyType.textChannelConverterT => some 7
  | PyType.roleConverterT => some 8
  | PyType.otherT => none

/-- One `inspect.Parameter` of a command callback: its name, its declared
annotation, and whether it has a default value (`required` in the source is
`argument.default == Param.empty`, i.e. `!hasDefault`). -/
structure ParamInfo where
  name : String
  declaredType : PyType
  hasDefault : Bool
deriving Repr, DecidableEq

/-- The values a Python dict lookup key can take at the
`SlashCommand.BASE_TYPES.get(argument, STRING)` call site. The keys of
`BASE_TYPES` are type objects and converter classes; they are never equal to
an `inspect.Parameter` instance or to a `str`, so `get` falls back to the
STRING default (3) for those. -/
inductive PyDictKey where
  | ofType (t : PyType)
  | ofParam (p : ParamInfo)
  | ofStr (s : String)

/-- `BASE_TYPES.get(key, ApplicationCommandOptionType.STRING)`. -/
def BASE_TYPES_get : PyDictKey → Nat
  | PyDictKey.ofType t => (BASE_TYPES t).getD 3
  | PyDictKey.ofParam _ => 3
  | PyDictKey.ofStr _ => 3

/-- The command tree of the host bot framework: `commands.Command` leaves
and `commands.Group` nodes. `params` models `clean_params`, an ordered dict
from parameter name to `inspect.Parameter`. -/
inductive CmdNode where
  | cmd (name : String) (shortDoc : String)
      (params : List (String × ParamInfo))
  | group (name : String) (shortDoc : String)
      (params : List (String × ParamInfo)) (children : List CmdNode)

/-- `isinstance(command, commands.Command)`. In discord.py,
`commands.Group` is declared as `class Group(GroupMixin, Command)`, a
SUBCLASS of `commands.Command`, so this isinstance check is true for groups
as well as for plain commands. -/
def isCommandInstance : CmdNode → Bool
  | CmdNode.cmd _ _ _ => true
  | CmdNode.group _ _ _ _ => true

/-- `isinstance(command, commands.Group)`. -/
def isGroupInstance : CmdNode → Bool
  | CmdNode.cmd _ _ _ => false
  | CmdNode.group _ _ _ _ => true

/-- The `type` field `_resolve_options` stores:
`1 if isinstance(command, commands.Command) else 2`. -/
def commandType (c : CmdNode) : Nat :=
  if isCommandInstance c then 1 else 2

/-- A node of the schema mapping `_resolve_options` builds: `node` is the
dict built for a command or group (name, description, type, options) and
`opt` is the dict built for one declared parameter. -/
inductive SchemaNode where
  | node (name : String) (description : String) (ty : Nat)
      (options : List SchemaNode)
  | opt (name : String) (description : String) (ty : Nat) (required : Bool)

/-- The values yielded when the source iterates over Python objects in
`_resolve_options`: iterating a dict yields its keys (strings), and the
loop body is written as if it received `inspect.Parameter` values. -/
inductive PyIterVal where
  | str (s : String)
  | param (p : ParamInfo)

/-- `for argument in args` where `args = command.clean_params`: iterating a
Python dict yields its KEYS, which are the parameter-name strings, not the
`inspect.Parameter` values. -/
def clean_params_iter (params : List (String × ParamInfo)) : List PyIterVal :=
  params.map (fun kv => PyIterVal.str kv.1)

/-- The option dict the loop body of `_resolve_options` builds for one
parameter value (models.py lines 272-285): name shortened to 32, the fixed
description placeholder, the `BASE_TYPES` lookup keyed by the loop variable
itself, and `required = (default == Parameter.empty)`.
`shorten` is the `textwrap.shorten` oracle. -/
def optionFor (shorten : String → Nat → String) (argument : ParamInfo) :
    SchemaNode :=
  SchemaNode.opt (shorten argument.name 32) "[No Description]"
    (BASE_TYPES_get (PyDictKey.ofParam argument)) (!argument.hasDefault)

/-- The parameter loop of `_resolve_options` for a leaf command: each
iterated value that `isinstance(argument, str)` holds for is skipped with
`continue`; any `inspect.Parameter` value would produce `optionFor`. -/
def resolveLeafOptions (shorten : String → Nat → String)
    (params : List (String × ParamInfo)) : List SchemaNode :=
  (clean_params_iter params).foldr
    (fun a acc =>
      match a with
      | PyIterVal.str _ => acc
      | PyIterVal.param p => optionFor shorten p :: acc)
    []

mutual

/-- `SlashCommand._resolve_options` (models.py lines 255-288). The content
dict carries `name`, `description = textwrap.shorten(short_doc, 100)`,
`type = 1 if isinstance(command, commands.Command) else 2`, and `options`:
for a `commands.Group`, the resolved schema of every command yielded by
`walk_commands()` (which yields each descendant, recursing into nested
groups); for a leaf command, the parameter loop over `clean_params`. -/
def resolve_options (shorten : String → Nat → String) :
    CmdNode → SchemaNode
  | CmdNode.cmd n d ps =>
    SchemaNode.node n (shorten d 100)
      (commandType (CmdNode.cmd n d ps)) (resolveLeafOptions shorten ps)
  | CmdNode.group n d ps ch =>
    SchemaNode.node n (shorten d 100)
      (commandType (CmdNode.group n d ps ch)) (resolveWalk shorten ch)

/-- `[_resolve_options(cmd) for cmd in command.walk_commands()]`:
`walk_commands` yields each direct child and, after a child that is itself
a group, additionally every command of that child subtree. -/
def resolveWalk (shorten : String → Nat → String) :
    List CmdNode → List SchemaNode
  | [] => []
  | CmdNode.cmd n d ps :: rest =>
    resolve_options shorten (CmdNode.cmd n d ps) ::
      resolveWalk shorten rest
  | CmdNode.group n d ps ch :: rest =>
    resolve_options shorten (CmdNode.group n d ps ch) ::
      (resolveWalk shorten ch ++ resolveWalk shorten rest)

end

/-- One option mapping as read by `_validate_schema`: `s["options"][i]`
with `option["name"]`, `option["description"]` and
`option.get("choices", [])`. -/
structure OptionSchema where
  name : String
  description : String
  choices : List JVal

/-- The schema mapping `_validate_schema` reads: `s["name"]`,
`s["description"]`, `s["options"]`. -/
structure CommandSchema where
  name : String
  description : String
  options : List OptionSchema

/-- The per-option checks of `_validate_schema` (models.py lines 324-333),
in source order: option name length (1 to 32), option description length
(1 to 100), then at most 10 choices. Each raised `IndexError` message
starts by naming the offending field, recorded by the `ValidationField`. -/
def validateOption (o : OptionSchema) : Except PyError Bool :=
  if o.name.length > 32 ∨ o.name.length < 1 then
    Except.error (PyError.indexError ValidationField.optionName)
  else if o.description.length > 100 ∨ o.description.length < 1 then
    Except.error (PyError.indexError ValidationField.optionDescription)
  else if o.choices.length > 10 then
    Except.error (PyError.indexError ValidationField.choices)
  else Except.ok true

/-- The option loop of `_validate_schema`, in list order. -/
def validateOptions : List OptionSchema → Except PyError Bool
  | [] => Except.ok true
  | o :: rest =>
    match validateOption o with
    | Except.error e => Except.error e
    | Except.ok _ => validateOptions rest

/-- `SlashCommand._validate_schema` (models.py lines 313-334; the source
name carries a leading underscore). The COMMAND name check is
`len(name) > 32 or len(name) < 3` (3 to 32 characters), the description
check is 1 to 100 characters, then each option is checked; on success the
function returns `True`. -/
def validate_schema (s : CommandSchema) : Except PyError Bool :=
  if s.name.length > 32 ∨ s.name.length < 3 then
    Except.error (PyError.indexError ValidationField.name)
  else if s.description.length > 100 ∨ s.description.length < 1 then
    Except.error (PyError.indexError ValidationField.description)
  else validateOptions s.options

/-- The guild-scoping step of `SlashCommandContainer.add_command`
(models.py lines 351-371): given the schema mapping (auto-generated or
validated kwargs), a supplied guild stores `schema["guild_id"] = guild.id`
and `schema["uri"] = "/applications/{client_id}/guilds/{guild_id}/commands"`
before the schema is appended to the publish list. Assigning a fresh key to
a Python dict appends it in insertion order. -/
def add_command (schema : List (String × JVal)) (guild : Option Nat) :
    List (String × JVal) :=
  match guild with
  | none => schema
  | some gid =>
    schema ++ [("guild_id", JVal.num gid),
      ("uri", JVal.str "/applications/{client_id}/guilds/{guild_id}/commands")]

/-- The HTTP response of the webhook route together with the list of
payloads dispatched to the application (each dispatched payload stands for
one `Interaction.from_request` construction handed to `dispatch`). -/
structure RouteResult where
  status : Nat
  body : JVal
  dispatched : List JVal

/-- `Router.route` (fastapi_router.py lines 44-55). Verification failure
yields 401 with an empty JSON body; then the decoded JSON body (`loads` is
modelled by passing the decoded value alongside the raw bytes) is inspected:
`json["type"] == 1` (Python `True == 1` as well, since bool is an int
subtype) yields status 200 with body `{"type": 1}` and dispatches nothing;
any other type value constructs an Interaction from the payload, dispatches
it, and yields 202 with an empty body. A missing `type` key raises
`KeyError`; a non-dict body raises `TypeError`. -/
def route (ed : List Nat → List Nat → List Nat → Bool)
    (timestamp signature : Option String) (bodyBytes : List Nat)
    (json : JVal) (publicKey : String) : Except PyError RouteResult :=
  match verify_key ed timestamp signature bodyBytes publicKey with
  | Except.error e => Except.error e
  | Except.ok ok =>
    if !ok then Except.ok ⟨401, JVal.obj [], []⟩
    else
      match json with
      | JVal.obj fields =>
        match lookupKey fields "type" with
        | none => Except.error PyError.keyError
        | some (JVal.num 1) =>
          Except.ok ⟨200, JVal.obj [("type", JVal.num 1)], []⟩
        | some (JVal.bool true) =>
          Except.ok ⟨200, JVal.obj [("type", JVal.num 1)], []⟩
        | some _ => Except.ok ⟨202, JVal.obj [], [json]⟩
      | _ => Except.error PyError.typeError

/-- A merge oracle for concrete evaluations (the host merge keeps fields of
the argument over the default; its exact behaviour is irrelevant to every
claim). -/
def mergeDefault : JVal → JVal → JVal := fun _ b => b

/-- A network oracle answering every call with status 200 and a null body,
for concrete evaluations. -/
def net200 : HttpCall → HttpResponse := fun _ => ⟨200, JVal.null⟩

/-- An indexed network oracle whose second response (index 1) fails with
status 400 and all others succeed, for concrete evaluations. -/
def netFailSecond : Nat → HttpResponse :=
  fun i => if i = 1 then ⟨400, JVal.null⟩ else ⟨200, JVal.null⟩

/-- An indexed network oracle answering every call with status 200, for
concrete evaluations. -/
def netOk : Nat → HttpResponse := fun _ => ⟨200, JVal.null⟩

/-- Whether a result models a raised Python exception. -/
def isRaised {α : Type} : Except PyError α → Bool
  | Except.error _ => true
  | Except.ok _ => false

/-- The acceptance condition exactly as the claim states it (spec-side
definition, for comparison with `validate_schema`): command name and every
option name 1 to 32 characters, command and option descriptions 1 to 100
characters, and no choice list of more than 10 entries. -/
def specAcceptanceBounds (s : CommandSchema) : Prop :=
  (1 ≤ s.name.length ∧ s.name.length ≤ 32) ∧
  (1 ≤ s.description.length ∧ s.description.length ≤ 100) ∧
  ∀ o ∈ s.options,
    (1 ≤ o.name.length ∧ o.name.length ≤ 32) ∧
    (1 ≤ o.description.length ∧ o.description.length ≤ 100) ∧
    o.choices.length ≤ 10

/-- Three one-field schema mappings, for concrete evaluations. -/
def cmdsW : List (List (String × JVal)) :=
  [[("name", JVal.str "a")], [("name", JVal.str "b")], [("name", JVal.str "c")]]

/-- Lookup after key erasure: erasing `k2` removes exactly the bindings of
`k2` and nothing else. -/
theorem lookupKey_eraseKey (m : List (String × JVal)) (k1 k2 : String) :
    lookupKey (eraseKey m k2) k1 =
      if k1 = k2 then none else lookupKey m k1 := by
  induction m with
  | nil => simp [eraseKey, lookupKey]
  | cons kv rest ih =>
    by_cases h2 : kv.1 = k2
    · by_cases h1 : k1 = k2
      · subst h1
        simp [eraseKey, h2, ih]
      · have hne : ¬ k2 = k1 := fun h => h1 h.symm
        simp [eraseKey, lookupKey, h2, h1, ih, hne]
    · by_cases hk : kv.1 = k1
      · have h1 : ¬ k1 = k2 := fun h => h2 (by rw [hk, h])
        simp [eraseKey, lookupKey, h2, hk, h1]
      · simp [eraseKey, lookupKey, h2, hk, ih]

/-- The payload that remains after the two pops never carries the `uri` or
`guild_id` keys. -/
theorem cleanPayload_no_keys (m : List (String × JVal)) :
    lookupKey (cleanPayload m) "uri" = none ∧
    lookupKey (cleanPayload m) "guild_id" = none := by
  constructor
  · unfold cleanPayload
    rw [lookupKey_eraseKey, if_neg (by decide), lookupKey_eraseKey,
      if_pos rfl]
  · unfold cleanPayload
    rw [lookupKey_eraseKey, if_pos rfl]

/-- The parameter loop of `_resolve_options` produces no option at all:
iterating the `clean_params` dict yields only key strings, and each is
skipped. -/
theorem resolveLeafOptions_eq_nil (shorten : String → Nat → String)
    (params : List (String × ParamInfo)) :
    resolveLeafOptions shorten params = [] := by
  induction params with
  | nil => rfl
  | cons kv rest ih =>
    simpa [resolveLeafOptions, clean_params_iter] using ih

/-- Each per-option check of `_validate_schema` either passes or raises an
`IndexError` naming the offending field. -/
theorem validateOption_cases (o : OptionSchema) :
    validateOption o = Except.ok true ∨
    ∃ f, validateOption o = Except.error (PyError.indexError f) := by
  unfold validateOption
  split
  · exact Or.inr ⟨_, rfl⟩
  · split
    · exact Or.inr ⟨_, rfl⟩
    · split
      · exact Or.inr ⟨_, rfl⟩
      · exact Or.inl rfl

/-- The option loop of `_validate_schema` either passes or raises an
`IndexError` naming the offending field. -/
theorem validateOptions_cases (l : List OptionSchema) :
    validateOptions l = Except.ok true ∨
    ∃ f, validateOptions l = Except.error (PyError.indexError f) := by
  induction l with
  | nil => exact Or.inl rfl
  | cons x rest ih =>
    rcases validateOption_cases x with hx | ⟨f, hx⟩
    · unfold validateOptions
      rw [hx]
      exact ih
    · exact Or.inr ⟨f, by unfold validateOptions; rw [hx]⟩

/-- `_validate_schema` either returns `True` or raises an `IndexError`
naming the offending field. -/
theorem validate_schema_cases (s : CommandSchema) :
    validate_schema s = Except.ok true ∨
    ∃ f, validate_schema s = Except.error (PyError.indexError f) := by
  unfold validate_schema
  split
  · exact Or.inr ⟨_, rfl⟩
  · split
    · exact Or.inr ⟨_, rfl⟩
    · exact validateOptions_cases s.options

/-- If one option passes its checks, its fields are within the documented
bounds. -/
theorem validateOption_ok_bounds (o : OptionSchema) (b : Bool)
    (h : validateOption o = Except.ok b) :
    (1 ≤ o.name.length ∧ o.name.length ≤ 32) ∧
    (1 ≤ o.description.length ∧ o.description.length ≤ 100) ∧
    o.choices.length ≤ 10 := by
  unfold validateOption at h
  split at h
  next hc1 => simp at h
  next hc1 =>
    split at h
    next hc2 => simp at h
    next hc2 =>
      split at h
      next hc3 => simp at h
      next hc3 =>
        push_neg at hc1 hc2 hc3
        exact ⟨⟨by omega, by omega⟩, ⟨by omega, by omega⟩, by omega⟩

/-- If the option loop passes, every option is within the documented
bounds. -/
theorem validateOptions_ok_bounds :
    ∀ (l : List OptionSchema) (b : Bool),
      validateOptions l = Except.ok b → ∀ o ∈ l,
        (1 ≤ o.name.length ∧ o.name.length ≤ 32) ∧
        (1 ≤ o.description.length ∧ o.description.length ≤ 100) ∧
        o.choices.length ≤ 10 := by
  intro l
  induction l with
  | nil => intro b _ o ho; simp at ho
  | cons x rest ih =>
    intro b h o ho
    unfold validateOptions at h
    cases hx : validateOption x with
    | error e => rw [hx] at h; simp at h
    | ok bx =>
      rw [hx] at h
      rcases List.mem_cons.mp ho with rfl | ho'
      · exact validateOption_ok_bounds o bx hx
      · exact ih b h o ho'

/-- All responses succeeding, `create_global_commands` issues one POST per
schema in list order, each carrying the popped payload, and leaves every
caller mapping in its popped state. -/
theorem create_global_commands_all200 (clientId : Nat) (token : String)
    (net : Nat → HttpResponse) :
    ∀ (cmds : List (List (String × JVal))) (idx : Nat),
      (∀ i, i < cmds.length → (net (idx + i)).status = 200) →
      create_global_commands clientId token net idx cmds =
        (Except.ok (),
         cmds.map (fun c => postCall clientId token (cleanPayload c)),
         cmds.map cleanPayload) := by
  intro cmds
  induction cmds with
  | nil => intro idx _; rfl
  | cons c rest ih =>
    intro idx h
    have h0 : (net idx).status = 200 := by simpa using h 0 (by simp)
    have hnf : ¬ ((net idx).status ≠ 200) := by simp [h0]
    have hrec := ih (idx + 1) (fun i hi => by
      have hx := h (i + 1) (by simpa using Nat.succ_lt_succ hi)
      have e : idx + (i + 1) = idx + 1 + i := by omega
      rwa [e] at hx)
    simp [create_global_commands, hnf, hrec]

/-- A one-element (or longer) list wrapped in `some` is truthy. -/
theorem listTruthy_some_cons (x : JVal) (l : List JVal) :
    listTruthy (some (x :: l)) = true := rfl

/-- C1: the claim holds of `Router.verify_key` — it returns `true` exactly
when Ed25519 verification of timestamp bytes concatenated with body bytes
succeeds (both hex inputs decoding with the lengths PyNaCl demands), and it
never raises once the two headers are present — but `Interaction.verify_request`
satisfies only the first half: it returns `Except.ok true` exactly on
cryptographic success, yet a signature that is not valid hex makes it RAISE
instead of returning `false`, because its try block catches only
`BadSignatureError`. -/
theorem c1_signature_verification
    (ed : List Nat → List Nat → List Nat → Bool)
    (ts rawBody sigHex keyHex : String) (bodyBytes : List Nat) :
    (verify_key ed (some ts) (some sigHex) bodyBytes keyHex =
        Except.ok true ↔
      edAccepts ed (strBytes ts ++ bodyBytes) sigHex keyHex) ∧
    (verify_request ed sigHex ts rawBody keyHex = Except.ok true ↔
      edAccepts ed (strBytes (ts ++ rawBody)) sigHex keyHex) ∧
    (∃ b, verify_key ed (some ts) (some sigHex) bodyBytes keyHex =
      Except.ok b) ∧
    (bytesFromHex sigHex = none →
      isRaised (verify_request ed sigHex ts rawBody keyHex) = true) := by
  refine ⟨?_, ?_, ⟨_, rfl⟩, ?_⟩
  · cases hk : bytesFromHex keyHex with
    | none => simp [verify_key, edAccepts, hk]
    | some kb =>
      by_cases hl : kb.length = 32
      · cases hs : bytesFromHex sigHex with
        | none => simp [verify_key, edAccepts, hk, hs, hl]
        | some sb =>
          by_cases hsl : sb.length = 64
          · simp [verify_key, edAccepts, hk, hs, hl, hsl]
          · simp [verify_key, edAccepts, hk, hs, hl, hsl]
      · simp [verify_key, edAccepts, hk, hl]
  · cases hk : bytesFromHex keyHex with
    | none => simp [verify_request, edAccepts, hk]
    | some kb =>
      by_cases hl : kb.length = 32
      · cases hs : bytesFromHex sigHex with
        | none => simp [verify_request, edAccepts, hk, hs, hl]
        | some sb =>
          by_cases hsl : sb.length = 64
          · simp [verify_request, edAccepts, hk, hs, hl, hsl]
          · simp [verify_request, edAccepts, hk, hs, hl, hsl]
      · simp [verify_request, edAccepts, hk, hl]
  · intro hs
    cases hk : bytesFromHex keyHex with
    | none => simp [verify_request, isRaised, hk]
    | some kb =>
      by_cases hl : kb.length = 32
      · simp [verify_request, isRaised, hk, hl, hs]
      · simp [verify_request, isRaised, hk, hl]

/-- C1 counterexample: with the all-accepting Ed25519 oracle and a valid
32-byte public key, a malformed hex signature makes
`Interaction.verify_request` raise a `ValueError` instead of returning
`false`, contradicting the claim that any cryptographic failure is
uniformly turned into `false` by both verification entry points. -/
theorem c1_counterexample :
    verify_request edTrue "zz" "t" "b" key64 =
      Except.error PyError.valueError := rfl

/-- Witness for C1: the raising conjunct applied at a malformed hex
signature with a concrete key and oracle. -/
theorem c1_witness :
    isRaised (verify_request edTrue "zz" "t" "b" key64) = true :=
  (c1_signature_verification edTrue "t" "b" "zz" key64 []).2.2.2 rfl

/-- C2: when the token was issued more than 900 seconds ago, both
`edit_initial_response` and `delete_initial_response` fail with the
Expired-Token condition and issue zero HTTP calls. -/
theorem c2_expired_token_no_network (net : HttpCall → HttpResponse)
    (merge : JVal → JVal → JVal) (userId : Nat) (token : String)
    (elapsed : ℚ) (botAM : Option JVal) (content : Option String)
    (tts : Bool) (embed : Option JVal) (embeds : Option (List JVal))
    (am : Option JVal) (delay : Option ℚ) (h : elapsed > 900) :
    edit_initial_response net merge userId token elapsed botAM content tts
        embed embeds am = (Except.error PyError.expiredToken, []) ∧
    delete_initial_response net userId token elapsed delay =
      (Except.error PyError.expiredToken, []) := by
  constructor
  · simp [edit_initial_response, h]
  · simp [delete_initial_response, h]

/-- Witness for C2 at 901 elapsed seconds. -/
theorem c2_witness :
    edit_initial_response net200 mergeDefault 1 "tok" 901 none none false
        none none none = (Except.error PyError.expiredToken, []) ∧
    delete_initial_response net200 1 "tok" 901 none =
      (Except.error PyError.expiredToken, []) :=
  c2_expired_token_no_network net200 mergeDefault 1 "tok" 901 none none
    false none none none none (by norm_num)

/-- C3 (evaluation of the buggy code): resolving a group with two leaf
commands yields exactly two option entries, each a leaf schema with
`type = 1` (command) — but the group node itself ALSO gets `type = 1`,
not a group marker: `isinstance(command, commands.Command)` is true for
`commands.Group` (a subclass of `Command` in discord.py), so the `else 2`
branch is unreachable and the code never marks a group differently from a
command, contrary to the claim and to the
`ApplicationCommandOptionType.SUB_COMMAND_GROUP = 2` value the same file
defines. -/
theorem c3_group_schema_types (shorten : String → Nat → String) :
    resolve_options shorten (CmdNode.group "grp" "gdoc" []
        [CmdNode.cmd "alpha" "adoc" [], CmdNode.cmd "beta" "bdoc" []]) =
      SchemaNode.node "grp" (shorten "gdoc" 100) 1
        [SchemaNode.node "alpha" (shorten "adoc" 100) 1 [],
         SchemaNode.node "beta" (shorten "bdoc" 100) 1 []] := rfl

/-- C4 (evaluation of the buggy code): for every leaf command the options
list of the generated schema is EMPTY whatever parameters the command
declares — the loop iterates the `clean_params` dict itself, so it
receives the parameter-name strings and skips every one of them through
the `isinstance(argument, str): continue` guard; no option entry, type
lookup or required flag is ever produced. -/
theorem c4_leaf_schema_options_empty (shorten : String → Nat → String)
    (name shortDoc : String) (params : List (String × ParamInfo)) :
    resolve_options shorten (CmdNode.cmd name shortDoc params) =
      SchemaNode.node name (shorten shortDoc 100) 1 [] := by
  have h := resolveLeafOptions_eq_nil shorten params
  simp [resolve_options, commandType, isCommandInstance, h]

/-- C5: `create_global_commands` issues one POST per schema sequentially in
list order and aborts the batch at the first non-200 response by raising
the HTTP-error condition: if the first `k` responses are 200 and response
`k` is not, the run raises `HTTPException` with that status after issuing
exactly the POSTs of the first `k + 1` schemas, in order, and never reaches
the later schemas. -/
theorem c5_abort_on_first_non200 (clientId : Nat) (token : String)
    (net : Nat → HttpResponse) :
    ∀ (cmds : List (List (String × JVal))) (idx k : Nat),
      k < cmds.length →
      (∀ i, i < k → (net (idx + i)).status = 200) →
      (net (idx + k)).status ≠ 200 →
      create_global_commands clientId token net idx cmds =
        (Except.error (PyError.httpException ((net (idx + k)).status)),
         (cmds.take (k + 1)).map
           (fun c => postCall clientId token (cleanPayload c)),
         (cmds.take (k + 1)).map cleanPayload ++ cmds.drop (k + 1)) := by
  intro cmds
  induction cmds with
  | nil => intro idx k hk _ _; exact absurd hk (by simp)
  | cons c rest ih =>
    intro idx k hk h200 hfail
    cases k with
    | zero =>
      have hf : (net idx).status ≠ 200 := by simpa using hfail
      simp [create_global_commands, hf]
    | succ k =>
      have h0 : (net idx).status = 200 := by
        simpa using h200 0 (Nat.succ_pos k)
      have hnf : ¬ ((net idx).status ≠ 200) := by simp [h0]
      have hks : k < rest.length := by simpa using hk
      have h200s : ∀ i, i < k → (net (idx + 1 + i)).status = 200 := by
        intro i hi
        have hx := h200 (i + 1) (by omega)
        have e : idx + (i + 1) = idx + 1 + i := by omega
        rwa [e] at hx
      have hfails : (net (idx + 1 + k)).status ≠ 200 := by
        have e : idx + (k + 1) = idx + 1 + k := by omega
        rwa [e] at hfail
      have hrec := ih (idx + 1) k hks h200s hfails
      have e : idx + (k + 1) = idx + 1 + k := by omega
      rw [e]
      simp [create_global_commands, hnf, hrec]

/-- Witness for C5: three schemas with the second response non-200 — the
batch raises HTTP-error 400 after exactly the POSTs of the first two
schemas. -/
theorem c5_witness :
    create_global_commands 7 "tok" netFailSecond 0 cmdsW =
      (Except.error (PyError.httpException ((netFailSecond (0 + 1)).status)),
       (cmdsW.take 2).map (fun c => postCall 7 "tok" (cleanPayload c)),
       (cmdsW.take 2).map cleanPayload ++ cmdsW.drop 2) :=
  c5_abort_on_first_non200 7 "tok" netFailSecond cmdsW 0 1 (by decide)
    (by intro i hi; interval_cases i; rfl) (by decide)

/-- C6: `_validate_schema` accepts a schema only when the claimed bounds
hold (command and option names 1 to 32 characters, descriptions 1 to 100,
at most 10 choices per option; the command-name check of the source is in
fact the stricter 3 to 32, which entails the claimed range), and any
violation of those bounds raises an `IndexError` whose message names the
offending field (recorded as the `ValidationField`). -/
theorem c6_validate_schema_bounds (s : CommandSchema) :
    (∀ b, validate_schema s = Except.ok b → specAcceptanceBounds s) ∧
    (¬ specAcceptanceBounds s →
      ∃ f, validate_schema s = Except.error (PyError.indexError f)) := by
  have hok : ∀ b, validate_schema s = Except.ok b →
      specAcceptanceBounds s := by
    intro b h
    unfold validate_schema at h
    split at h
    next hc1 => simp at h
    next hc1 =>
      split at h
      next hc2 => simp at h
      next hc2 =>
        push_neg at hc1 hc2
        refine ⟨⟨by omega, by omega⟩, ⟨by omega, by omega⟩, ?_⟩
        exact validateOptions_ok_bounds s.options b h
  refine ⟨hok, fun hns => ?_⟩
  rcases validate_schema_cases s with hv | ⟨f, hv⟩
  · exact absurd (hok true hv) hns
  · exact ⟨f, hv⟩

/-- Witness for C6: the empty command name violates the bounds and the
validator raises. -/
theorem c6_witness :
    isRaised (validate_schema ⟨"", "d", []⟩) = true := by
  obtain ⟨f, hf⟩ := (c6_validate_schema_bounds ⟨"", "d", []⟩).2
    (by unfold specAcceptanceBounds; decide)
  rw [hf]; rfl

/-- C7 (amended): when `embed` and `embeds` are not mixed, the mapping
`followup` returns carries the `content`, `tts` and `embeds` keys exactly
when the corresponding argument is truthy — but the `allowed_mentions` key
is ALWAYS present (the source assigns it unconditionally, storing `None`
when no argument is given and the bot-wide default is absent, rather than
omitting the field as claimed). -/
theorem c7_followup_key_presence (merge : JVal → JVal → JVal)
    (botAM : Option JVal) (content : Option String) (tts : Bool)
    (embed : Option JVal) (embeds : Option (List JVal)) (am : Option JVal)
    (h : (embed.isSome && listTruthy embeds) = false) :
    (followup merge botAM content tts embed embeds am).map
        (fun m => (hasKey m "content", hasKey m "tts", hasKey m "embeds",
          hasKey m "allowed_mentions")) =
      Except.ok (truthyStr content, tts,
        embed.isSome || listTruthy embeds, true) := by
  unfold followup
  rw [h]
  cases he : embed.isSome <;> cases hle : listTruthy embeds <;>
    cases hc : truthyStr content <;> cases htts : tts <;>
      simp [hasKey, lookupKey, Except.map, he, hc, hle, listTruthy_some_cons]

/-- Witness for C7: content-only reply — the mapping has the `content` and
`allowed_mentions` keys and neither `tts` nor `embeds`. -/
theorem c7_witness :
    (followup mergeDefault none (some "hi") false none none none).map
        (fun m => (hasKey m "content", hasKey m "tts", hasKey m "embeds",
          hasKey m "allowed_mentions")) =
      Except.ok (true, false, false, true) := by
  have h := c7_followup_key_presence mergeDefault none (some "hi") false
    none none none rfl
  simpa [truthyStr, listTruthy] using h

/-- C7 counterexample: with no `allowed_mentions` argument and no bot-wide
default, the returned mapping still CONTAINS the `allowed_mentions` key
(bound to null), where the claim requires the field to be omitted. -/
theorem c7_counterexample :
    (followup mergeDefault none none false none none none).map
        (fun m => lookupKey m "allowed_mentions") =
      Except.ok (some JVal.null) := rfl

/-- C8 (evaluation of the buggy code): a schema registered guild-scoped by
`add_command` (carrying the guild uri template and the guild id) is POSTed
by `create_global_commands` to the GLOBAL commands path
`/applications/{client_id}/commands`: the popped template is formatted but
the formatted string is never used as the request target, although
formatting it would have produced the guild endpoint the claim names. -/
theorem c8_guild_command_posted_to_global_path :
    ((create_global_commands 42 "tok" netOk 0
        [add_command [("name", JVal.str "cmd")] (some 123)]).2.1.map
        HttpCall.uri =
      ["https://discord.com/api/v8/applications/42/commands"]) ∧
    formatUri "/applications/{client_id}/guilds/{guild_id}/commands" "42"
        "123" = "/applications/42/guilds/123/commands" :=
  ⟨rfl, rfl⟩

/-- C9: a request that passes signature verification and whose decoded
JSON body has `type` equal to 1 (PING) is answered with status 200 and
body `{"type": 1}`, with nothing dispatched to the application (no
Interaction is constructed). -/
theorem c9_ping_response (ed : List Nat → List Nat → List Nat → Bool)
    (timestamp signature : Option String) (bodyBytes : List Nat)
    (fields : List (String × JVal)) (publicKey : String)
    (hver : verify_key ed timestamp signature bodyBytes publicKey =
      Except.ok true)
    (hty : lookupKey fields "type" = some (JVal.num 1)) :
    route ed timestamp signature bodyBytes (JVal.obj fields) publicKey =
      Except.ok ⟨200, JVal.obj [("type", JVal.num 1)], []⟩ := by
  simp [route, hver, hty]

/-- Witness for C9 at a concrete verified PING payload. -/
theorem c9_witness :
    route edTrue (some "0") (some sig128) [] (JVal.obj [("type", JVal.num 1)])
        key64 = Except.ok ⟨200, JVal.obj [("type", JVal.num 1)], []⟩ :=
  c9_ping_response edTrue (some "0") (some sig128) [] [("type", JVal.num 1)]
    key64 rfl rfl

/-- C10: `create_global_commands` pops the `uri` and `guild_id` keys off
every schema mapping in place — in a run whose responses are all 200, the
caller-visible mappings all end in their popped state — and every POSTed
JSON body is a mapping containing neither key. -/
theorem c10_pop_mutation_and_body (clientId : Nat) (token : String)
    (net : Nat → HttpResponse) (cmds : List (List (String × JVal)))
    (hall : ∀ i, i < cmds.length → (net i).status = 200) :
    (create_global_commands clientId token net 0 cmds).2.2 =
      cmds.map cleanPayload ∧
    ∀ call ∈ (create_global_commands clientId token net 0 cmds).2.1,
      ∃ fields, call.body = some (JVal.obj fields) ∧
        lookupKey fields "uri" = none ∧
        lookupKey fields "guild_id" = none := by
  have h := create_global_commands_all200 clientId token net cmds 0
    (fun i hi => by simpa using hall i hi)
  rw [h]
  constructor
  · rfl
  · intro call hc
    simp only [List.mem_map] at hc
    obtain ⟨c, _, rfl⟩ := hc
    exact ⟨cleanPayload c, rfl, (cleanPayload_no_keys c).1,
      (cleanPayload_no_keys c).2⟩

/-- Witness for C10: a guild-scoped schema mapping ends mutated — both
keys removed in the caller-visible state. -/
theorem c10_witness :
    (create_global_commands 42 "tok" netOk 0
        [add_command [("name", JVal.str "cmd")] (some 123)]).2.2 =
      [[("name", JVal.str "cmd")]] := by
  have h := c10_pop_mutation_and_body 42 "tok" netOk
    [add_command [("name", JVal.str "cmd")] (some 123)] (fun _ _ => rfl)
  rw [h.1]
  rfl

end DI
